import Mathlib

set_option maxRecDepth 40000

/-!
Shallow embedding of the reconciliation core of the `fireflyiii-importer`
repository: `transaction.py` (the `Transaction` and `Config` data model) and
`firefly_importer.py` (CSV-row normalisation, external-id generation, transfer
classification, and the per-transaction import loop).

Python library calls that are external to the repository are modelled at the
level of detail the verified properties use; every such model carries a doc
comment stating exactly what is and is not modelled.
-/

namespace Firefly

/-- ASCII whitespace recognised by the model of Python's `str.strip()`. -/
def isSpaceChar (c : Char) : Bool :=
  c = ' ' || c = '\t' || c = '\n' || c = '\r' || c = '\x0b' || c = '\x0c'

/-- Model of Python `str.strip()` (used in `_parse_csv_transactions`, line 102,
to trim every cell value): drops leading and trailing whitespace. -/
def pyStrip (s : String) : String :=
  ⟨((s.data.dropWhile isSpaceChar).reverse.dropWhile isSpaceChar).reverse⟩

/-- Numeric value of a decimal digit character (`'0'` ↦ 0, …, `'9'` ↦ 9). -/
def charVal (c : Char) : Nat := c.toNat - 48

/-- Value of a big-endian list of decimal digit characters. -/
def decVal (l : List Char) : Nat := l.foldl (fun a c => 10 * a + charVal c) 0

/-- Decimal digit test (`'0'`–`'9'`). -/
def isDigitChar (c : Char) : Bool := 48 ≤ c.toNat && c.toNat ≤ 57

/-- Fuel-driven digit emission for `pyStr`; emits the big-endian decimal
digits of `n` (none when `n = 0`). The fuel argument only makes the recursion
structural; `pyStrAux fuel n` is the digit string of `n` whenever `n ≤ fuel`. -/
def pyStrAux : Nat → Nat → List Char
  | 0, _ => []
  | fuel + 1, n => if n = 0 then [] else pyStrAux fuel (n / 10) ++ [Nat.digitChar (n % 10)]

/-- Model of Python `str(i)` on a non-negative integer: its decimal
representation, `"0"` for zero. -/
def pyStr (n : Nat) : String :=
  if n = 0 then "0" else ⟨pyStrAux n n⟩

/-- Six-character big-endian lowercase hex rendering of a natural number
below `16^6` (every Unicode code point fits). -/
def hex6 (n : Nat) : List Char :=
  [Nat.digitChar (n / 16 ^ 5 % 16), Nat.digitChar (n / 16 ^ 4 % 16),
   Nat.digitChar (n / 16 ^ 3 % 16), Nat.digitChar (n / 16 ^ 2 % 16),
   Nat.digitChar (n / 16 % 16), Nat.digitChar (n % 16)]

/-- Model of `hashlib.sha256(key.encode()).hexdigest()`
(`_generate_external_id`, line 43). The digest itself is library code outside
the repository; the spec characterises it as a deterministic,
collision-resistant digest of the UTF-8 encoded key rendered in hex. It is
modelled as an injective hex fingerprint of the key's code points: the
fixed-size compression is not modelled, and the spec's collision-resistance
assumption becomes injectivity of the model. Every verified property uses
only determinism and (for ordinal disambiguation) this injectivity. -/
def sha256Hex (s : String) : String :=
  ⟨(s.data.map (fun c => hex6 c.toNat)).flatten⟩

/-- Exact-decimal model of a Python float produced by `float(cell)`: the
value `mantissa / 10 ^ fracDigits`. IEEE-754 rounding is not modelled; the
verified properties use only determinism, the sign test, negation and
absolute value, on which the exact-decimal and floating models agree for the
decimal literals the importer parses. -/
structure PyFloat where
  mantissa : Int
  fracDigits : Nat
deriving DecidableEq, Repr

/-- Model of `0 - x` / unary minus on a parsed amount. -/
def PyFloat.neg (x : PyFloat) : PyFloat := ⟨-x.mantissa, x.fracDigits⟩

/-- Model of Python `abs` on a parsed amount. -/
def PyFloat.abs (x : PyFloat) : PyFloat := ⟨(x.mantissa.natAbs : Int), x.fracDigits⟩

/-- Model of `x < 0` on a parsed amount. -/
def PyFloat.isNeg (x : PyFloat) : Bool := x.mantissa < 0

/-- Deterministic stand-in for Python's float-to-string conversion
(`f"{transaction.amount}"` in `_generate_external_id`, `str(abs(...))` in the
gateway calls). The exact text of Python's shortest-round-trip float
formatting is not modelled; the verified properties use only that equal
parsed amounts render to equal strings. -/
def PyFloat.repr (x : PyFloat) : String :=
  (if x.mantissa < 0 then "-" else "") ++ pyStr x.mantissa.natAbs ++ "e-" ++ pyStr x.fracDigits

/-- Unsigned decimal literal: digits with at most one point and at least one
digit, as accepted by Python `float` for the importer's cells. -/
def parseUnsignedFloat (l : List Char) : Option PyFloat :=
  let ip := l.takeWhile (fun c => c ≠ '.')
  match l.dropWhile (fun c => c ≠ '.') with
  | [] => if !ip.isEmpty && ip.all isDigitChar then some ⟨(decVal ip : Int), 0⟩ else none
  | _ :: fp =>
    if !(ip ++ fp).isEmpty && (ip ++ fp).all isDigitChar && fp.all (fun c => c ≠ '.') then
      some ⟨(decVal (ip ++ fp) : Int), fp.length⟩
    else none

/-- Model of Python `float(cell)` (`_parse_csv_transactions`, lines 106–112)
on the already-stripped cell, restricted to optionally signed decimal
literals (exponents, `inf`/`nan` and underscores are not modelled). `none`
models the `ValueError` Python raises on an unparseable amount. -/
def pyFloat (s : String) : Option PyFloat :=
  match s.data with
  | '-' :: r => (parseUnsignedFloat r).map PyFloat.neg
  | '+' :: r => parseUnsignedFloat r
  | r => parseUnsignedFloat r

/-- Model of `datetime.strptime(cell, fmt)` (`_parse_csv_transactions`,
line 119). Calendar parsing and normalisation are not modelled: a parsed
datetime is represented by the (cell, format) pair that produced it. The
verified properties use only that `strptime` is deterministic and that its
renderings (`isoformat`, `strftime`) are deterministic functions of the
parsed value. -/
structure PyDateTime where
  cell : String
  fmt : String
deriving DecidableEq, Repr

/-- Model of `datetime.strptime`. -/
def strptime (cell fmt : String) : PyDateTime := ⟨cell, fmt⟩

/-- Deterministic stand-in for `datetime.isoformat()` (used in the identity
key, `_generate_external_id` line 40). -/
def PyDateTime.isoformat (d : PyDateTime) : String := d.cell

/-- Deterministic stand-in for `datetime.strftime("%Y-%m-%d")` (used in the
create payload and search queries). -/
def PyDateTime.strfDateOnly (d : PyDateTime) : String := d.cell

/-- The `Transaction` dataclass of `transaction.py`. -/
structure Transaction where
  date : PyDateTime
  description : String
  amount : PyFloat
  account : String
  external_id : String
  type : Option String := none
  source_name : Option String := none
  destination_name : Option String := none
deriving DecidableEq, Repr

/-- The `Config` dataclass of `transaction.py`. Python dicts with string keys
are modelled as association lists with the first binding of a key
authoritative. -/
structure Config where
  account : String
  description_column : String
  date_column : String
  date_format : String
  date_window_days : Option Int := none
  amount_column : Option String := none
  invert_amount : Bool := false
  credit_column : Option String := none
  debit_column : Option String := none
  additional_uid_column : Option String := none
  transfers_out : List (String × String) := []
  transfers_in : List (String × String) := []
deriving DecidableEq, Repr

/-- Model of Python `dict.get(k)`: value of the first binding of `k`. -/
def dictGet (m : List (String × String)) (k : String) : Option String :=
  (m.find? (fun p => p.1 == k)).map (fun p => p.2)

/-- One CSV row as produced by `csv.DictReader`: header name ↦ cell text. -/
abbrev Row := List (String × String)

/-- Errors raised while normalising rows: the configuration `ValueError` of
lines 92–96, `KeyError` from a missing column, and `ValueError` from
`float` or from `datetime.strptime` on a bad cell. -/
inductive ParseError
  | configError
  | keyError (column : String)
  | valueError (cell : String)
deriving DecidableEq, Repr

/-- Model of Python `row[k]` (raises `KeyError` when the column is absent). -/
def getCol (row : Row) (k : String) : Except ParseError String :=
  match dictGet row k with
  | some v => .ok v
  | none => .error (.keyError k)

/-- Line 102: rebuild the row with every cell value stripped. -/
def stripRow (row : Row) : Row := row.map (fun p => (p.1, pyStrip p.2))

/-- Amount resolution, `_parse_csv_transactions` lines 105–112: the
`amount_column` scheme (with optional inversion) when configured, otherwise
the credit/debit scheme where an empty credit cell means
`amount = 0 - float(debit)` and a non-empty one means
`amount = float(credit)`. -/
def resolveAmount (cfg : Config) (row : Row) : Except ParseError PyFloat :=
  match cfg.amount_column with
  | some ac =>
    match getCol row ac with
    | .error e => .error e
    | .ok cell =>
      match pyFloat cell with
      | none => .error (.valueError cell)
      | some a => .ok (if cfg.invert_amount then a.neg else a)
  | none =>
    match cfg.credit_column, cfg.debit_column with
    | some cc, some dc =>
      match getCol row cc with
      | .error e => .error e
      | .ok creditCell =>
        if creditCell = "" then
          match getCol row dc with
          | .error e => .error e
          | .ok debitCell =>
            match pyFloat debitCell with
            | none => .error (.valueError debitCell)
            | some a => .ok a.neg
        else
          match pyFloat creditCell with
          | none => .error (.valueError creditCell)
          | some a => .ok a
    | _, _ => .error .configError

/-- Description resolution, lines 114–116: the configured description column,
with the `"Check"` cell appended (no separator) when that cell is present and
truthy (non-empty after stripping). -/
def resolveDescription (cfg : Config) (row : Row) : Except ParseError String :=
  match getCol row cfg.description_column with
  | .error e => .error e
  | .ok d =>
    match dictGet row "Check" with
    | some c => if c = "" then .ok d else .ok (d ++ c)
    | none => .ok d

/-- Disambiguator resolution, lines 128–133: `none` when
`additional_uid_column` is absent or falsy; the row's original index rendered
with `str` when it is the `"idx"` sentinel; otherwise the named column's
value (a missing column raises `KeyError`). -/
def rowUid (cfg : Config) (i : Nat) (row : Row) : Except ParseError (Option String) :=
  match cfg.additional_uid_column with
  | some c =>
    if c = "" then .ok none
    else if c = "idx" then .ok (some (pyStr i))
    else
      match getCol row c with
      | .error e => .error e
      | .ok v => .ok (some v)
  | none => .ok none

/-- `_generate_external_id`, lines 36–43: the identity key concatenates the
ISO date, the amount's string form, the account and the description with `-`
separators, appends the disambiguator when truthy, and hashes the result. -/
def generateExternalId (t : Transaction) (additionalUidValue : Option String) : String :=
  let key := t.date.isoformat ++ "-" ++ t.amount.repr ++ "-" ++ t.account ++ "-" ++ t.description
  let key :=
    match additionalUidValue with
    | some u => if u = "" then key else key ++ "-" ++ u
    | none => key
  sha256Hex key

/-- The `if destination := config.transfers_out.get(...)` block,
lines 139–142: applies when the lookup returns a truthy (non-empty) value,
setting type `transfer`, source the config's own account and destination the
mapped value. -/
def applyTransfersOut (cfg : Config) (desc : String) (t : Transaction) : Transaction :=
  match dictGet cfg.transfers_out desc with
  | some destination =>
    if destination = "" then t
    else { t with type := some "transfer", source_name := some cfg.account,
                  destination_name := some destination }
  | none => t

/-- The `if source := config.transfers_in.get(...)` block, lines 144–147:
applies when the lookup returns a truthy (non-empty) value, setting type
`transfer`, source the mapped value and destination the config's own
account. -/
def applyTransfersIn (cfg : Config) (desc : String) (t : Transaction) : Transaction :=
  match dictGet cfg.transfers_in desc with
  | some source =>
    if source = "" then t
    else { t with type := some "transfer", source_name := some source,
                  destination_name := some cfg.account }
  | none => t

/-- Transfer classification, lines 139–147: look up the literal
`"Description"` cell (raising `KeyError` when absent), then run both `if`
blocks in order — the outbound block first, the inbound block second, each
applying independently of the other. -/
def classifyTransfer (cfg : Config) (row : Row) (t : Transaction) :
    Except ParseError Transaction :=
  match getCol row "Description" with
  | .error e => .error e
  | .ok desc => .ok (applyTransfersIn cfg desc (applyTransfersOut cfg desc t))

/-- The transaction as constructed at lines 118–126, before the external id
is attached: parsed date, resolved description and amount, the config's
account, an empty external id, and the sign-derived type. -/
def rawTransaction (cfg : Config) (dateCell description : String) (amount : PyFloat) :
    Transaction :=
  { date := strptime dateCell cfg.date_format, description := description,
    amount := amount, account := cfg.account, external_id := "",
    type := some (if amount.isNeg then "withdrawal" else "deposit") }

/-- Lines 105–137 of the row loop on an already-stripped row: resolve the
amount and description, build the transaction (parsing the date cell),
derive the withdrawal/deposit type, resolve the disambiguator and attach the
external id. -/
def buildTransaction (cfg : Config) (i : Nat) (row : Row) : Except ParseError Transaction :=
  match resolveAmount cfg row with
  | .error e => .error e
  | .ok amount =>
    match resolveDescription cfg row with
    | .error e => .error e
    | .ok description =>
      match getCol row cfg.date_column with
      | .error e => .error e
      | .ok dateCell =>
        match rowUid cfg i row with
        | .error e => .error e
        | .ok u =>
          .ok { rawTransaction cfg dateCell description amount with
                external_id :=
                  generateExternalId (rawTransaction cfg dateCell description amount) u }

/-- One iteration of the row loop of `_parse_csv_transactions`
(lines 100–149) on the row with original enumeration index `i`: strip the
cell values, build the transaction with its external id, then classify
transfers. -/
def parseRow (cfg : Config) (i : Nat) (rawRow : Row) : Except ParseError Transaction :=
  match buildTransaction cfg i (stripRow rawRow) with
  | .error e => .error e
  | .ok t => classifyTransfer cfg (stripRow rawRow) t

/-- The row loop over the (index, row) sequence, collecting transactions and
propagating the first error. -/
def parseRows (cfg : Config) : List (Nat × Row) → Except ParseError (List Transaction)
  | [] => .ok []
  | (i, row) :: rest =>
    match parseRow cfg i row with
    | .error e => .error e
    | .ok t =>
      match parseRows cfg rest with
      | .error e => .error e
      | .ok ts => .ok (t :: ts)

/-- `_parse_csv_transactions`, lines 77–149: the configuration check of
lines 92–96 followed by the row loop over `reversed(list(enumerate(reader)))`.
The Python generator is materialised into a list; the import loop below
consumes it in the same order. -/
def parseCsvTransactions (cfg : Config) (rows : List Row) :
    Except ParseError (List Transaction) :=
  if cfg.amount_column.isNone && (cfg.credit_column.isNone || cfg.debit_column.isNone) then
    .error .configError
  else
    parseRows cfg rows.enum.reverse

/-- One HTTP response from the ledger gateway, as the importer observes it:
the status code and, in `jsonData`, the result of
`response.json().get("data", [])` — `some l` when the body parses as JSON
(records represented by their ids), `none` when `response.json()` raises. -/
structure GatewayResponse where
  status : Nat
  jsonData : Option (List String)
deriving DecidableEq, Repr

/-- The date constraint of `_find_matching_transfer`, lines 205–213: exact
date when `date_window_days` is absent, otherwise the ±days window. The
`timedelta` arithmetic and `strftime` rendering of the bounds are kept
symbolic: the query records the date and the window width. -/
inductive DateFilter
  | onDate (d : PyDateTime)
  | window (d : PyDateTime) (days : Int)
deriving DecidableEq, Repr

/-- Model of Python `x or y` on an optional string: `y` when `x` is `None`
or empty. -/
def pyOr (o : Option String) (d : String) : String :=
  match o with
  | some s => if s = "" then d else s
  | none => d

/-- `f'"{v}"'` wrapping of a query value. -/
def quoted (s : String) : String := "\"" ++ s ++ "\""

/-- String interpolation of an optional value (`None` renders as `"None"`,
as in `f'"{transaction.destination_name}"'`). -/
def optRepr (o : Option String) : String :=
  match o with
  | some s => s
  | none => "None"

/-- The structured content of the search query built by
`_find_matching_transfer`, lines 193–213 (serialisation by
`_dict_to_search_query` is not modelled; the gateway oracle is keyed on the
structured query). -/
structure TransferQuery where
  amount : String
  source_account_is : String
  destination_account_is : String
  exclude_description_is : String
  dateFilter : DateFilter
deriving DecidableEq, Repr

/-- The query `_find_matching_transfer` sends for a transaction under the
run's config. -/
def transferQuery (cfg : Config) (t : Transaction) : TransferQuery :=
  { amount := t.amount.abs.repr
    source_account_is := quoted (pyOr t.source_name t.account)
    destination_account_is := quoted (optRepr t.destination_name)
    exclude_description_is := quoted t.description
    dateFilter :=
      match cfg.date_window_days with
      | none => .onDate t.date
      | some d => .window t.date d }

/-- The body `_create_transaction` (lines 151–167) posts for a transaction. -/
structure CreatePayload where
  type : String
  date : String
  amount : String
  description : String
  external_id : String
  source_name : String
  destination_name : String
deriving DecidableEq, Repr

/-- Payload construction of `_create_transaction`, lines 154–167. -/
def createPayload (t : Transaction) : CreatePayload :=
  { type := optRepr t.type
    date := t.date.strfDateOnly
    amount := t.amount.abs.repr
    description := t.description
    external_id := t.external_id
    source_name := pyOr t.source_name t.account
    destination_name :=
      pyOr t.destination_name (if t.amount.isNeg then "Cash" else t.account) }

/-- The ledger gateway as the oracle of responses the run receives: one
response function per endpoint use (duplicate lookup, transfer-candidate
lookup, create). The model is pure, matching the single-threaded
one-request-at-a-time use in the source. -/
structure Gateway where
  findByExternalIdResp : String → GatewayResponse
  findTransferResp : TransferQuery → GatewayResponse
  createResp : CreatePayload → GatewayResponse

/-- Exceptions escaping a gateway call: `requests` JSON-decode failure from
`response.json()`, or `HTTPError` from `response.raise_for_status()`. -/
inductive GatewayError
  | jsonDecode
  | httpStatus (code : Nat)
deriving DecidableEq, Repr

/-- `_find_transaction_by_external_id`, lines 179–186: the response status is
never checked; the body is parsed (`response.json()` raising on a non-JSON
body) and the first record of `data` — or `none` — is returned. -/
def findTransactionByExternalId (gw : Gateway) (externalId : String) :
    Except GatewayError (Option String) :=
  match (gw.findByExternalIdResp externalId).jsonData with
  | none => .error .jsonDecode
  | some results => .ok results.head?

/-- `_find_matching_transfer`, lines 188–224: builds the transfer query and
handles the response exactly like the external-id lookup (status never
checked). -/
def findMatchingTransfer (gw : Gateway) (cfg : Config) (t : Transaction) :
    Except GatewayError (Option String) :=
  match (gw.findTransferResp (transferQuery cfg t)).jsonData with
  | none => .error .jsonDecode
  | some results => .ok results.head?

/-- The three outcome counters owned by the importer object. -/
structure Counters where
  transactions_created : Nat := 0
  transactions_skipped : Nat := 0
  transfers_matched : Nat := 0
deriving DecidableEq, Repr

/-- `_create_transaction`, lines 151–177: post the payload, increment the
created counter (line 176), then `raise_for_status` (line 177) — so a
non-success create response raises only after the counter was incremented.
An error carries the counters as they stand when it escapes, since the
Python counters are object state that survives the exception. -/
def createTransaction (gw : Gateway) (st : Counters) (t : Transaction) :
    Except (GatewayError × Counters) Counters :=
  let resp := gw.createResp (createPayload t)
  let st1 := { st with transactions_created := st.transactions_created + 1 }
  if 400 ≤ resp.status then .error (.httpStatus resp.status, st1) else .ok st1

/-- One iteration of the loop of `import_from_csv`, lines 56–71: duplicate
lookup, then — for transfers — candidate lookup, then create. -/
def importStep (gw : Gateway) (cfg : Config) (st : Counters) (t : Transaction) :
    Except (GatewayError × Counters) Counters :=
  match findTransactionByExternalId gw t.external_id with
  | .error e => .error (e, st)
  | .ok (some _) =>
    .ok { st with transactions_skipped := st.transactions_skipped + 1 }
  | .ok none =>
    if t.type = some "transfer" then
      match findMatchingTransfer gw cfg t with
      | .error e => .error (e, st)
      | .ok (some _) =>
        .ok { st with transfers_matched := st.transfers_matched + 1 }
      | .ok none => createTransaction gw st t
    else createTransaction gw st t

/-- The transaction loop of `import_from_csv`: processes the sequence in
order, stopping at the first escaping exception. -/
def importLoop (gw : Gateway) (cfg : Config) :
    Counters → List Transaction → Except (GatewayError × Counters) Counters
  | st, [] => .ok st
  | st, t :: ts =>
    match importStep gw cfg st t with
    | .error e => .error e
    | .ok st1 => importLoop gw cfg st1 ts

/-- A fatal outcome of a whole run: a normalisation error or a gateway
exception (with the counters at the moment it escaped). -/
inductive ImportError
  | parse (e : ParseError)
  | gateway (e : GatewayError) (st : Counters)
deriving DecidableEq, Repr

/-- `import_from_csv`, lines 45–75: normalise the file, then drain the
sequence through the per-transaction loop starting from zero counters. -/
def importFromCsv (gw : Gateway) (cfg : Config) (rows : List Row) :
    Except ImportError Counters :=
  match parseCsvTransactions cfg rows with
  | .error e => .error (.parse e)
  | .ok ts =>
    match importLoop gw cfg {} ts with
    | .error (e, st) => .error (.gateway e st)
    | .ok st => .ok st

deriving instance DecidableEq for Except

/-- Numeric value of a lowercase hex digit character. -/
def hexVal (c : Char) : Nat := if c.toNat ≤ 57 then c.toNat - 48 else c.toNat - 87

/-- Value of a big-endian list of hex digit characters. -/
def unhex6 (l : List Char) : Nat := l.foldl (fun a c => 16 * a + hexVal c) 0

/-- Python truthiness of an optional string: present and non-empty. -/
def pyTruthy (o : Option String) : Bool :=
  match o with
  | some s => !(s == "")
  | none => false

/-- Sum of the three counters. -/
def countersSum (st : Counters) : Nat :=
  st.transactions_created + st.transactions_skipped + st.transfers_matched

/-- Two gateways whose lookup responses have identical JSON bodies — the
status codes may differ arbitrarily — and identical create responses. -/
def gatewaysAgree (gw gw' : Gateway) : Prop :=
  (∀ eid, (gw.findByExternalIdResp eid).jsonData = (gw'.findByExternalIdResp eid).jsonData) ∧
  (∀ q, (gw.findTransferResp q).jsonData = (gw'.findTransferResp q).jsonData) ∧
  (∀ p, gw.createResp p = gw'.createResp p)

/-! ### Concrete fixtures for witnesses and counterexamples -/

/-- A default transaction value used with `Option.getD` when naming the
result of a concrete parse. -/
def defaultTx : Transaction :=
  { date := ⟨"", ""⟩, description := "", amount := ⟨0, 0⟩, account := "", external_id := "" }

/-- Baseline config: amount-column scheme over a `Checking` statement. -/
def cfgBase : Config :=
  { account := "Checking", description_column := "Description", date_column := "Date",
    date_format := "%m/%d/%Y", amount_column := some "Amount" }

def rowCoffee : Row :=
  [("Date", "01/05/2024"), ("Description", " Coffee Shop "), ("Amount", "-4.50")]

def rowPay : Row :=
  [("Date", "01/06/2024"), ("Description", "Paycheck"), ("Amount", "2000.00")]

/-- Config whose `transfers_out` and `transfers_in` share the key
`"Shuttle"`. -/
def cfgCollide : Config :=
  { cfgBase with transfers_out := [("Shuttle", "Savings")],
                 transfers_in := [("Shuttle", "Brokerage")] }

def rowShuttle : Row :=
  [("Date", "01/05/2024"), ("Description", "Shuttle"), ("Amount", "-4.50")]

def txShuttle : Transaction := (parseRow cfgCollide 0 rowShuttle).toOption.getD defaultTx

/-- Config naming a description column other than the literal
`"Description"`, with an outbound mapping keyed on that column's value. -/
def cfgMemo : Config :=
  { cfgBase with description_column := "Memo", transfers_out := [("PAY", "Savings")] }

def rowMemo : Row :=
  [("Date", "01/05/2024"), ("Memo", "PAY"), ("Description", "different"), ("Amount", "-4.50")]

def txMemo : Transaction := (parseRow cfgMemo 0 rowMemo).toOption.getD defaultTx

def rowCheck : Row :=
  [("Date", "01/05/2024"), ("Description", "Rent "), ("Check", " 1024 "), ("Amount", "-900.00")]

def txCheck : Transaction := (parseRow cfgBase 0 rowCheck).toOption.getD defaultTx

/-- Credit/debit-scheme config. -/
def cfgCD : Config :=
  { account := "Checking", description_column := "Description", date_column := "Date",
    date_format := "%m/%d/%Y", credit_column := some "Credit", debit_column := some "Debit" }

/-- The same config with the amount-column scheme instead. -/
def cfgAmt : Config :=
  { cfgCD with credit_column := none, debit_column := none, amount_column := some "Amount" }

def rowDebit : Row :=
  [("Date", "01/05/2024"), ("Description", "Coffee"), ("Credit", ""), ("Debit", "12.50")]

def rowAmt : Row :=
  [("Date", "01/05/2024"), ("Description", "Coffee"), ("Amount", "-12.50")]

/-- Config with both amount schemes fully specified at once. -/
def cfgBothSchemes : Config :=
  { cfgBase with credit_column := some "Credit", debit_column := some "Debit" }

/-- Config with neither amount scheme fully specified. -/
def cfgNoScheme : Config := { cfgBase with amount_column := none }

/-- Config using the ordinal disambiguator sentinel. -/
def cfgIdx : Config := { cfgBase with additional_uid_column := some "idx" }

def rows2 : List Row := [rowCoffee, rowPay]

def tsIdx : List Transaction := (parseCsvTransactions cfgIdx rows2).toOption.getD []

def txIdx0 : Transaction := (parseRow cfgIdx 0 rowCoffee).toOption.getD defaultTx

def txIdx1 : Transaction := (parseRow cfgIdx 1 rowCoffee).toOption.getD defaultTx

/-- A gateway that answers every request with success and an empty data
list. -/
def gwOk : Gateway :=
  { findByExternalIdResp := fun _ => ⟨200, some []⟩
    findTransferResp := fun _ => ⟨200, some []⟩
    createResp := fun _ => ⟨200, some []⟩ }

/-- A gateway whose every response carries HTTP status 500 with a parseable
JSON body holding no data. -/
def gwFail : Gateway :=
  { findByExternalIdResp := fun _ => ⟨500, some []⟩
    findTransferResp := fun _ => ⟨500, some []⟩
    createResp := fun _ => ⟨500, some []⟩ }

/-- Like `gwOk` but with different (non-success) statuses on the two lookup
endpoints and the same bodies and create responses. -/
def gwOkOtherStatus : Gateway :=
  { findByExternalIdResp := fun _ => ⟨503, some []⟩
    findTransferResp := fun _ => ⟨404, some []⟩
    createResp := fun _ => ⟨200, some []⟩ }

def tsBase : List Transaction := (parseCsvTransactions cfgBase rows2).toOption.getD []

def stBase : Counters := (importLoop gwOk cfgBase {} tsBase).toOption.getD {}

/-! ### Helper lemmas: strings, decimal representation, hex fingerprint -/

theorem string_data_inj {s t : String} (h : s.data = t.data) : s = t := by
  cases s
  cases t
  exact congrArg String.mk h

theorem string_append_cancel_left {a s t : String} (h : a ++ s = a ++ t) : s = t := by
  have hd := congrArg String.data h
  rw [String.data_append, String.data_append] at hd
  exact string_data_inj (List.append_cancel_left hd)

theorem decVal_append_digit (l : List Char) (c : Char) :
    decVal (l ++ [c]) = 10 * decVal l + charVal c := by
  unfold decVal
  rw [List.foldl_append]
  rfl

theorem charVal_digitChar {d : Nat} (h : d < 10) : charVal (Nat.digitChar d) = d := by
  interval_cases d <;> rfl

theorem decVal_pyStrAux : ∀ {fuel n : Nat}, n ≤ fuel → decVal (pyStrAux fuel n) = n := by
  intro fuel
  induction fuel with
  | zero =>
    intro n hn
    interval_cases n
    rfl
  | succ f ih =>
    intro n hn
    unfold pyStrAux
    by_cases hz : n = 0
    · simp [hz]
      rfl
    · simp only [hz, if_false]
      rw [decVal_append_digit, ih (by omega), charVal_digitChar (Nat.mod_lt n (by norm_num))]
      omega

theorem pyStrAux_self_ne_nil {n : Nat} (h : n ≠ 0) : pyStrAux n n ≠ [] := by
  intro hnil
  have := decVal_pyStrAux (Nat.le_refl n)
  rw [hnil] at this
  exact h (by simpa [decVal] using this.symm)

theorem pyStr_ne_empty (n : Nat) : pyStr n ≠ "" := by
  unfold pyStr
  by_cases hz : n = 0
  · simp [hz]
  · simp only [hz, if_false]
    intro h
    exact pyStrAux_self_ne_nil hz (congrArg String.data h)

theorem pyStr_injective : Function.Injective pyStr := by
  intro a b h
  unfold pyStr at h
  by_cases ha : a = 0 <;> by_cases hb : b = 0
  · omega
  · rw [if_pos ha, if_neg hb] at h
    have hd : pyStrAux b b = ['0'] := by
      have := congrArg String.data h
      simpa using this.symm
    have hv := decVal_pyStrAux (Nat.le_refl b)
    rw [hd, show decVal ['0'] = 0 from rfl] at hv
    omega
  · rw [if_neg ha, if_pos hb] at h
    have hd : pyStrAux a a = ['0'] := by
      have := congrArg String.data h
      simpa using this
    have hv := decVal_pyStrAux (Nat.le_refl a)
    rw [hd, show decVal ['0'] = 0 from rfl] at hv
    omega
  · rw [if_neg ha, if_neg hb] at h
    have hd : pyStrAux a a = pyStrAux b b := congrArg String.data h
    have := decVal_pyStrAux (Nat.le_refl a)
    rw [hd, decVal_pyStrAux (Nat.le_refl b)] at this
    omega

theorem hexVal_digitChar {d : Nat} (h : d < 16) : hexVal (Nat.digitChar d) = d := by
  interval_cases d <;> rfl

theorem unhex6_hex6 {n : Nat} (h : n < 16 ^ 6) : unhex6 (hex6 n) = n := by
  unfold hex6 unhex6
  simp only [List.foldl]
  rw [hexVal_digitChar (Nat.mod_lt _ (by norm_num)),
      hexVal_digitChar (Nat.mod_lt _ (by norm_num)),
      hexVal_digitChar (Nat.mod_lt _ (by norm_num)),
      hexVal_digitChar (Nat.mod_lt _ (by norm_num)),
      hexVal_digitChar (Nat.mod_lt _ (by norm_num)),
      hexVal_digitChar (Nat.mod_lt _ (by norm_num))]
  norm_num
  omega

theorem hex6_inj {m n : Nat} (hm : m < 16 ^ 6) (hn : n < 16 ^ 6)
    (h : hex6 m = hex6 n) : m = n := by
  rw [← unhex6_hex6 hm, ← unhex6_hex6 hn, h]

theorem char_toNat_lt (c : Char) : c.toNat < 16 ^ 6 := by
  have h := c.valid
  rcases h with h | ⟨_, h2⟩
  · calc c.toNat < 0xd800 := by exact_mod_cast h
      _ < 16 ^ 6 := by norm_num
  · calc c.toNat < 0x110000 := by exact_mod_cast h2
      _ < 16 ^ 6 := by norm_num

theorem flatten_sixes_inj :
    ∀ (l1 l2 : List (List Char)), (∀ x ∈ l1, x.length = 6) → (∀ x ∈ l2, x.length = 6) →
      l1.flatten = l2.flatten → l1 = l2 := by
  intro l1
  induction l1 with
  | nil =>
    intro l2 _ h2 hf
    cases l2 with
    | nil => rfl
    | cons b bs =>
      exfalso
      have hb := h2 b (List.mem_cons_self b bs)
      have := congrArg List.length hf
      simp [hb] at this
      omega
  | cons a as ih =>
    intro l2 h1 h2 hf
    cases l2 with
    | nil =>
      exfalso
      have ha := h1 a (List.mem_cons_self a as)
      have := congrArg List.length hf
      simp [ha] at this
    | cons b bs =>
      simp only [List.flatten_cons] at hf
      have ha := h1 a (List.mem_cons_self a as)
      have hb := h2 b (List.mem_cons_self b bs)
      obtain ⟨hab, hrest⟩ := List.append_inj hf (by rw [ha, hb])
      have := ih bs (fun x hx => h1 x (List.mem_cons_of_mem a hx))
        (fun x hx => h2 x (List.mem_cons_of_mem b hx)) hrest
      rw [hab, this]

theorem sha256Hex_injective : Function.Injective sha256Hex := by
  intro s t h
  have hd : ((s.data.map fun c => hex6 c.toNat).flatten : List Char)
      = (t.data.map fun c => hex6 c.toNat).flatten := congrArg String.data h
  have hmaps := flatten_sixes_inj _ _
    (by
      intro x hx
      obtain ⟨c, _, rfl⟩ := List.mem_map.mp hx
      rfl)
    (by
      intro x hx
      obtain ⟨c, _, rfl⟩ := List.mem_map.mp hx
      rfl)
    hd
  have hfinj : Function.Injective (fun c : Char => hex6 c.toNat) := by
    intro c1 c2 hc
    have hn : c1.toNat = c2.toNat :=
      hex6_inj (char_toNat_lt c1) (char_toNat_lt c2) hc
    calc c1 = Char.ofNat c1.toNat := (Char.ofNat_toNat c1).symm
      _ = Char.ofNat c2.toNat := by rw [hn]
      _ = c2 := Char.ofNat_toNat c2
  exact string_data_inj (List.map_injective_iff.mpr hfinj hmaps)

/-! ### Structural lemmas about the normalisation pipeline -/

theorem generateExternalId_congr {t1 t2 : Transaction} {u1 u2 : Option String}
    (hdate : t1.date = t2.date) (hamount : t1.amount = t2.amount)
    (haccount : t1.account = t2.account) (hdesc : t1.description = t2.description)
    (hu : u1 = u2) : generateExternalId t1 u1 = generateExternalId t2 u2 := by
  unfold generateExternalId
  rw [hdate, hamount, haccount, hdesc, hu]

theorem applyTransfersOut_preserves (cfg : Config) (desc : String) (t : Transaction) :
    (applyTransfersOut cfg desc t).date = t.date ∧
    (applyTransfersOut cfg desc t).description = t.description ∧
    (applyTransfersOut cfg desc t).amount = t.amount ∧
    (applyTransfersOut cfg desc t).account = t.account ∧
    (applyTransfersOut cfg desc t).external_id = t.external_id := by
  unfold applyTransfersOut
  cases dictGet cfg.transfers_out desc with
  | none => exact ⟨rfl, rfl, rfl, rfl, rfl⟩
  | some d =>
    by_cases hd : d = "" <;> simp [hd]

theorem applyTransfersIn_preserves (cfg : Config) (desc : String) (t : Transaction) :
    (applyTransfersIn cfg desc t).date = t.date ∧
    (applyTransfersIn cfg desc t).description = t.description ∧
    (applyTransfersIn cfg desc t).amount = t.amount ∧
    (applyTransfersIn cfg desc t).account = t.account ∧
    (applyTransfersIn cfg desc t).external_id = t.external_id := by
  unfold applyTransfersIn
  cases dictGet cfg.transfers_in desc with
  | none => exact ⟨rfl, rfl, rfl, rfl, rfl⟩
  | some s =>
    by_cases hs : s = "" <;> simp [hs]

theorem applyTransfersIn_truthy {cfg : Config} {desc sIn : String} (t : Transaction)
    (h : dictGet cfg.transfers_in desc = some sIn) (hs : sIn ≠ "") :
    applyTransfersIn cfg desc t =
      { t with type := some "transfer", source_name := some sIn,
               destination_name := some cfg.account } := by
  unfold applyTransfersIn
  rw [h]
  simp [hs]

theorem applyTransfersIn_not_truthy {cfg : Config} {desc : String} (t : Transaction)
    (h : pyTruthy (dictGet cfg.transfers_in desc) = false) :
    applyTransfersIn cfg desc t = t := by
  unfold applyTransfersIn
  unfold pyTruthy at h
  cases hg : dictGet cfg.transfers_in desc with
  | none => rfl
  | some s =>
    rw [hg] at h
    simp at h
    simp [h]

theorem applyTransfersOut_not_truthy {cfg : Config} {desc : String} (t : Transaction)
    (h : pyTruthy (dictGet cfg.transfers_out desc) = false) :
    applyTransfersOut cfg desc t = t := by
  unfold applyTransfersOut
  unfold pyTruthy at h
  cases hg : dictGet cfg.transfers_out desc with
  | none => rfl
  | some d =>
    rw [hg] at h
    simp at h
    simp [h]

theorem applyTransfersOut_truthy_type {cfg : Config} {desc dOut : String} (t : Transaction)
    (h : dictGet cfg.transfers_out desc = some dOut) (hd : dOut ≠ "") :
    applyTransfersOut cfg desc t =
      { t with type := some "transfer", source_name := some cfg.account,
               destination_name := some dOut } := by
  unfold applyTransfersOut
  rw [h]
  simp [hd]

theorem buildTransaction_ok_inv {cfg : Config} {i : Nat} {row : Row} {t : Transaction}
    (h : buildTransaction cfg i row = .ok t) :
    ∃ amount description dateCell u,
      resolveAmount cfg row = .ok amount ∧
      resolveDescription cfg row = .ok description ∧
      getCol row cfg.date_column = .ok dateCell ∧
      rowUid cfg i row = .ok u ∧
      t = { rawTransaction cfg dateCell description amount with
            external_id :=
              generateExternalId (rawTransaction cfg dateCell description amount) u } := by
  unfold buildTransaction at h
  cases hA : resolveAmount cfg row with
  | error e =>
    rw [hA] at h
    exact Except.noConfusion h
  | ok amount =>
    rw [hA] at h
    cases hD : resolveDescription cfg row with
    | error e =>
      rw [hD] at h
      exact Except.noConfusion h
    | ok description =>
      rw [hD] at h
      cases hC : getCol row cfg.date_column with
      | error e =>
        rw [hC] at h
        exact Except.noConfusion h
      | ok dateCell =>
        rw [hC] at h
        cases hU : rowUid cfg i row with
        | error e =>
          rw [hU] at h
          exact Except.noConfusion h
        | ok u =>
          rw [hU] at h
          exact ⟨amount, description, dateCell, u, rfl, rfl, rfl, rfl,
            (Except.ok.inj h).symm⟩

theorem parseRow_ok_inv {cfg : Config} {i : Nat} {raw : Row} {t : Transaction}
    (h : parseRow cfg i raw = .ok t) :
    ∃ t0 desc, buildTransaction cfg i (stripRow raw) = .ok t0 ∧
      getCol (stripRow raw) "Description" = .ok desc ∧
      t = applyTransfersIn cfg desc (applyTransfersOut cfg desc t0) := by
  unfold parseRow at h
  cases hB : buildTransaction cfg i (stripRow raw) with
  | error e =>
    rw [hB] at h
    exact Except.noConfusion h
  | ok t0 =>
    rw [hB] at h
    unfold classifyTransfer at h
    cases hG : getCol (stripRow raw) "Description" with
    | error e =>
      rw [hG] at h
      exact Except.noConfusion h
    | ok desc =>
      rw [hG] at h
      exact ⟨t0, desc, rfl, rfl, (Except.ok.inj h).symm⟩

/-- The classification stage changes neither the identity-relevant fields nor
the external id. -/
theorem parseRow_ok_fields {cfg : Config} {i : Nat} {raw : Row} {t : Transaction}
    (h : parseRow cfg i raw = .ok t) :
    ∃ amount description dateCell u,
      resolveAmount cfg (stripRow raw) = .ok amount ∧
      resolveDescription cfg (stripRow raw) = .ok description ∧
      getCol (stripRow raw) cfg.date_column = .ok dateCell ∧
      rowUid cfg i (stripRow raw) = .ok u ∧
      t.date = strptime dateCell cfg.date_format ∧
      t.description = description ∧
      t.amount = amount ∧
      t.account = cfg.account ∧
      t.external_id = generateExternalId t u := by
  obtain ⟨t0, desc, hB, hG, ht⟩ := parseRow_ok_inv h
  obtain ⟨amount, description, dateCell, u, hA, hD, hC, hU, ht0⟩ := buildTransaction_ok_inv hB
  obtain ⟨hI1, hI2, hI3, hI4, hI5⟩ :=
    applyTransfersIn_preserves cfg desc (applyTransfersOut cfg desc t0)
  obtain ⟨hO1, hO2, hO3, hO4, hO5⟩ := applyTransfersOut_preserves cfg desc t0
  have hd1 : t.date = strptime dateCell cfg.date_format := by
    rw [ht, hI1, hO1, ht0]
    rfl
  have hd2 : t.description = description := by
    rw [ht, hI2, hO2, ht0]
    rfl
  have hd3 : t.amount = amount := by
    rw [ht, hI3, hO3, ht0]
    rfl
  have hd4 : t.account = cfg.account := by
    rw [ht, hI4, hO4, ht0]
    rfl
  have hid : t.external_id =
      generateExternalId (rawTransaction cfg dateCell description amount) u := by
    rw [ht, hI5, hO5, ht0]
  refine ⟨amount, description, dateCell, u, hA, hD, hC, hU, hd1, hd2, hd3, hd4, ?_⟩
  rw [hid]
  exact generateExternalId_congr hd1.symm hd3.symm hd4.symm hd2.symm rfl

theorem getCol_eq_ok {row : Row} {k v : String} :
    getCol row k = .ok v ↔ dictGet row k = some v := by
  unfold getCol
  cases dictGet row k <;> simp

theorem parseRow_classified {cfg : Config} {i : Nat} {raw : Row} {t : Transaction}
    {desc : String} (h : parseRow cfg i raw = .ok t)
    (hdesc : dictGet (stripRow raw) "Description" = some desc) :
    ∃ t0, buildTransaction cfg i (stripRow raw) = .ok t0 ∧
      t = applyTransfersIn cfg desc (applyTransfersOut cfg desc t0) := by
  obtain ⟨t0, desc', hB, hG, ht⟩ := parseRow_ok_inv h
  have hde : desc' = desc := by
    rw [getCol_eq_ok] at hG
    rw [hG] at hdesc
    exact Option.some.inj hdesc
  subst hde
  exact ⟨t0, hB, ht⟩

theorem buildTransaction_type {cfg : Config} {i : Nat} {row : Row} {t0 : Transaction}
    (h : buildTransaction cfg i row = .ok t0) :
    t0.type = some (if t0.amount.isNeg then "withdrawal" else "deposit") := by
  obtain ⟨amount, description, dateCell, u, _, _, _, _, ht0⟩ := buildTransaction_ok_inv h
  rw [ht0]
  rfl

theorem parseRow_type_transfer_iff {cfg : Config} {i : Nat} {raw : Row} {t : Transaction}
    {desc : String} (h : parseRow cfg i raw = .ok t)
    (hdesc : dictGet (stripRow raw) "Description" = some desc) :
    t.type = some "transfer" ↔
      (pyTruthy (dictGet cfg.transfers_out desc) = true ∨
       pyTruthy (dictGet cfg.transfers_in desc) = true) := by
  obtain ⟨t0, hB, ht⟩ := parseRow_classified h hdesc
  have ht0 := buildTransaction_type hB
  by_cases hin : pyTruthy (dictGet cfg.transfers_in desc) = true
  · unfold pyTruthy at hin
    cases hg : dictGet cfg.transfers_in desc with
    | none =>
      rw [hg] at hin
      exact absurd hin (by simp)
    | some s =>
      rw [hg] at hin
      simp at hin
      rw [ht, applyTransfersIn_truthy _ hg hin]
      simp
      exact Or.inr (by simp [pyTruthy, hin])
  · have hinf : pyTruthy (dictGet cfg.transfers_in desc) = false := by
      simpa using hin
    rw [ht, applyTransfersIn_not_truthy _ hinf]
    by_cases hout : pyTruthy (dictGet cfg.transfers_out desc) = true
    · unfold pyTruthy at hout
      cases hg : dictGet cfg.transfers_out desc with
      | none =>
        rw [hg] at hout
        exact absurd hout (by simp)
      | some d =>
        rw [hg] at hout
        simp at hout
        rw [applyTransfersOut_truthy_type _ hg hout]
        simp [hinf]
        simp [pyTruthy, hout]
    · have houtf : pyTruthy (dictGet cfg.transfers_out desc) = false := by
        simpa using hout
      rw [applyTransfersOut_not_truthy _ houtf, ht0]
      constructor
      · intro hty
        by_cases hneg : t0.amount.isNeg <;> simp [hneg] at hty
      · intro hor
        rcases hor with hc | hc
        · rw [houtf] at hc
          exact absurd hc (by simp)
        · rw [hinf] at hc
          exact absurd hc (by simp)

/-! ### Lemmas about the row loop and the import loop -/

theorem parseRows_ok_inv {cfg : Config} :
    ∀ {l : List (Nat × Row)} {ts : List Transaction}, parseRows cfg l = .ok ts →
      ts.length = l.length ∧
      ∀ k (hk : k < ts.length) (hk' : k < l.length),
        parseRow cfg (l.get ⟨k, hk'⟩).1 (l.get ⟨k, hk'⟩).2 = .ok (ts.get ⟨k, hk⟩) := by
  intro l
  induction l with
  | nil =>
    intro ts h
    unfold parseRows at h
    have hts : ts = [] := (Except.ok.inj h).symm
    subst hts
    exact ⟨rfl, fun k hk _ => absurd hk (by simp)⟩
  | cons p rest ih =>
    intro ts h
    obtain ⟨i, row⟩ := p
    unfold parseRows at h
    cases hR : parseRow cfg i row with
    | error e =>
      rw [hR] at h
      exact Except.noConfusion h
    | ok t =>
      rw [hR] at h
      cases hRest : parseRows cfg rest with
      | error e =>
        rw [hRest] at h
        exact Except.noConfusion h
      | ok ts1 =>
        rw [hRest] at h
        have hts : ts = t :: ts1 := (Except.ok.inj h).symm
        subst hts
        obtain ⟨hlen, hget⟩ := ih hRest
        refine ⟨by simpa using hlen, ?_⟩
        intro k hk hk'
        cases k with
        | zero => exact hR
        | succ k =>
          exact hget k (by simpa using hk) (by simpa using hk')

theorem enumReverse_get (rows : List Row) (k : Nat) (hk : k < rows.enum.reverse.length) :
    ∃ (hk' : rows.length - 1 - k < rows.length),
      rows.enum.reverse.get ⟨k, hk⟩ =
        (rows.length - 1 - k, rows.get ⟨rows.length - 1 - k, hk'⟩) := by
  have hlen : rows.enum.reverse.length = rows.length := by simp
  have hk2 : k < rows.length := hlen ▸ hk
  have hk' : rows.length - 1 - k < rows.length := by omega
  refine ⟨hk', ?_⟩
  have h1 : rows.enum.reverse.get ⟨k, hk⟩ = rows.enum.reverse[k] := rfl
  rw [h1, List.getElem_reverse]
  have hidx : rows.enum.length - 1 - k = rows.length - 1 - k := by
    rw [List.enum_length]
  simp only [List.getElem_enum, hidx, List.get_eq_getElem]

theorem createTransaction_ok_inv {gw : Gateway} {st st' : Counters} {t : Transaction}
    (h : createTransaction gw st t = .ok st') :
    st' = { st with transactions_created := st.transactions_created + 1 } := by
  unfold createTransaction at h
  dsimp only at h
  by_cases hc : 400 ≤ (gw.createResp (createPayload t)).status
  · rw [if_pos hc] at h
    exact Except.noConfusion h
  · rw [if_neg hc] at h
    exact (Except.ok.inj h).symm

theorem createTransaction_fail {gw : Gateway} (st : Counters) (t : Transaction)
    (h : 400 ≤ (gw.createResp (createPayload t)).status) :
    createTransaction gw st t =
      .error (.httpStatus (gw.createResp (createPayload t)).status,
        { st with transactions_created := st.transactions_created + 1 }) := by
  unfold createTransaction
  rw [if_pos h]

theorem importStep_ok_sum {gw : Gateway} {cfg : Config} {st st' : Counters}
    {t : Transaction} (h : importStep gw cfg st t = .ok st') :
    countersSum st' = countersSum st + 1 := by
  unfold importStep at h
  cases hF : findTransactionByExternalId gw t.external_id with
  | error e =>
    rw [hF] at h
    exact Except.noConfusion h
  | ok r =>
    rw [hF] at h
    cases r with
    | some found =>
      have hst : st' = { st with transactions_skipped := st.transactions_skipped + 1 } :=
        (Except.ok.inj h).symm
      rw [hst]
      unfold countersSum
      simp
      omega
    | none =>
      by_cases hty : t.type = some "transfer"
      · rw [if_pos hty] at h
        cases hM : findMatchingTransfer gw cfg t with
        | error e =>
          rw [hM] at h
          exact Except.noConfusion h
        | ok m =>
          rw [hM] at h
          cases m with
          | some found =>
            have hst : st' = { st with transfers_matched := st.transfers_matched + 1 } :=
              (Except.ok.inj h).symm
            rw [hst]
            unfold countersSum
            simp
            omega
          | none =>
            have hst := createTransaction_ok_inv h
            rw [hst]
            unfold countersSum
            simp
            omega
      · rw [if_neg hty] at h
        have hst := createTransaction_ok_inv h
        rw [hst]
        unfold countersSum
        simp
        omega

theorem importLoop_ok_sum {gw : Gateway} {cfg : Config} :
    ∀ {ts : List Transaction} {st st' : Counters}, importLoop gw cfg st ts = .ok st' →
      countersSum st' = countersSum st + ts.length := by
  intro ts
  induction ts with
  | nil =>
    intro st st' h
    unfold importLoop at h
    have : st = st' := Except.ok.inj h
    rw [this]
    simp
  | cons t rest ih =>
    intro st st' h
    unfold importLoop at h
    cases hS : importStep gw cfg st t with
    | error e =>
      rw [hS] at h
      exact Except.noConfusion h
    | ok st1 =>
      rw [hS] at h
      have h1 := importStep_ok_sum hS
      have h2 := ih h
      simp only [List.length_cons]
      omega

theorem importLoop_cons_error {gw : Gateway} {cfg : Config} {st : Counters}
    {t : Transaction} {ts : List Transaction} {ec : GatewayError × Counters}
    (h : importStep gw cfg st t = .error ec) :
    importLoop gw cfg st (t :: ts) = .error ec := by
  unfold importLoop
  rw [h]

theorem importStep_congr {gw gw' : Gateway} (hag : gatewaysAgree gw gw')
    (cfg : Config) (st : Counters) (t : Transaction) :
    importStep gw cfg st t = importStep gw' cfg st t := by
  obtain ⟨h1, h2, h3⟩ := hag
  unfold importStep findTransactionByExternalId findMatchingTransfer createTransaction
  rw [h1, h2, h3]

theorem importLoop_congr {gw gw' : Gateway} (hag : gatewaysAgree gw gw') (cfg : Config) :
    ∀ (ts : List Transaction) (st : Counters),
      importLoop gw cfg st ts = importLoop gw' cfg st ts := by
  intro ts
  induction ts with
  | nil =>
    intro st
    rfl
  | cons t rest ih =>
    intro st
    unfold importLoop
    rw [importStep_congr hag cfg st t]
    cases importStep gw' cfg st t with
    | error e => rfl
    | ok st1 => exact ih st1

/-! ### Claim theorems -/

/-- **C1**: the external id is a pure, deterministic function of the
transaction's date, amount, account, description and the optional
disambiguator: any two transactions agreeing on those four fields, with
equal disambiguator values, receive the identical hex string — whatever
their other fields hold. -/
theorem C1_externalId_pure (t1 t2 : Transaction) (u1 u2 : Option String)
    (hdate : t1.date = t2.date) (hamount : t1.amount = t2.amount)
    (haccount : t1.account = t2.account) (hdesc : t1.description = t2.description)
    (hu : u1 = u2) : generateExternalId t1 u1 = generateExternalId t2 u2 :=
  generateExternalId_congr hdate hamount haccount hdesc hu

theorem C1_externalId_pure_witness :
    generateExternalId txShuttle (some "7") =
      generateExternalId
        { txShuttle with external_id := "zzz", type := none, source_name := none,
                         destination_name := some "elsewhere" } (some "7") :=
  C1_externalId_pure _ _ _ _ rfl rfl rfl rfl rfl

/-- **C2 counterexample**: with `"Shuttle"` a key of both mappings
(`transfers_out` maps it to `"Savings"`, `transfers_in` to `"Brokerage"`),
the claim demands the outbound mapping win — destination the
`transfers_out` value `"Savings"`, source the own account `"Checking"`.
The code runs both `if` blocks and the inbound assignments overwrite: the
transaction ends with source `"Brokerage"` and destination `"Checking"`. -/
theorem C2_counterexample :
    (parseRow cfgCollide 0 rowShuttle).map
        (fun t => (t.type, t.source_name, t.destination_name)) =
      .ok (some "transfer", some "Brokerage", some "Checking") ∧
    ¬ (parseRow cfgCollide 0 rowShuttle).map
        (fun t => (t.type, t.source_name, t.destination_name)) =
      .ok (some "transfer", some "Checking", some "Savings") :=
  ⟨by decide, by decide⟩

/-- **C2 (amended)**: both mappings are checked in order and both may apply;
when a description is a key of both (with truthy mapped values), the
inbound mapping — checked second — wins: the resulting transaction has type
`transfer`, `source_name` the `transfers_in` mapped value and
`destination_name` the config's own account. -/
theorem C2_collision_inbound_wins {cfg : Config} {i : Nat} {raw : Row}
    {t : Transaction} {desc dOut sIn : String}
    (h : parseRow cfg i raw = .ok t)
    (hdesc : dictGet (stripRow raw) "Description" = some desc)
    (hout : dictGet cfg.transfers_out desc = some dOut) (hdo : dOut ≠ "")
    (hin : dictGet cfg.transfers_in desc = some sIn) (hsi : sIn ≠ "") :
    t.type = some "transfer" ∧ t.source_name = some sIn ∧
      t.destination_name = some cfg.account := by
  obtain ⟨t0, hB, ht⟩ := parseRow_classified h hdesc
  rw [ht, applyTransfersIn_truthy _ hin hsi]
  exact ⟨rfl, rfl, rfl⟩

theorem C2_collision_inbound_wins_witness :
    txShuttle.type = some "transfer" ∧ txShuttle.source_name = some "Brokerage" ∧
      txShuttle.destination_name = some "Checking" :=
  @C2_collision_inbound_wins cfgCollide 0 rowShuttle txShuttle "Shuttle" "Savings" "Brokerage"
    (by decide) (by decide) (by decide) (by decide) (by decide) (by decide)

/-- **C3 counterexample**: one transaction through a gateway answering every
request with HTTP 500 and a parseable empty-data JSON body. The claim
demands that the non-success duplicate-lookup response abort the run and
that a failed create leave the created counter untouched. Instead the run
proceeds past the non-success lookup to the create, and the create failure
escapes only after the created counter was incremented to 1. -/
theorem C3_counterexample :
    importFromCsv gwFail cfgBase [rowCoffee] =
      .error (.gateway (.httpStatus 500)
        { transactions_created := 1, transactions_skipped := 0,
          transfers_matched := 0 }) := by
  decide

/-- **C3 (amended)**: the two lookup calls never inspect the response
status — gateways differing only in lookup status codes drive the loop
identically, so a non-success lookup response whose body parses as JSON is
treated as its data list and the run continues. An error in a step aborts
the loop with no further transactions processed. A non-success create
response propagates only after the created counter was incremented for the
failing transaction. -/
theorem C3_gateway_error_behaviour :
    (∀ gw gw' : Gateway, gatewaysAgree gw gw' → ∀ cfg st ts,
      importLoop gw cfg st ts = importLoop gw' cfg st ts) ∧
    (∀ gw cfg st (t : Transaction) (ts : List Transaction) ec,
      importStep gw cfg st t = .error ec →
      importLoop gw cfg st (t :: ts) = .error ec) ∧
    (∀ gw cfg st (t : Transaction),
      findTransactionByExternalId gw t.external_id = .ok none →
      (t.type = some "transfer" → findMatchingTransfer gw cfg t = .ok none) →
      400 ≤ (gw.createResp (createPayload t)).status →
      importStep gw cfg st t =
        .error (.httpStatus (gw.createResp (createPayload t)).status,
          { st with transactions_created := st.transactions_created + 1 })) := by
  refine ⟨?_, ?_, ?_⟩
  · intro gw gw' hag cfg st ts
    exact importLoop_congr hag cfg ts st
  · intro gw cfg st t ts ec h
    exact importLoop_cons_error h
  · intro gw cfg st t hF hM hC
    unfold importStep
    rw [hF]
    by_cases hty : t.type = some "transfer"
    · rw [if_pos hty, hM hty]
      exact createTransaction_fail st t hC
    · rw [if_neg hty]
      exact createTransaction_fail st t hC

theorem C3_gateway_error_behaviour_witness :
    importLoop gwOk cfgBase {} tsBase = importLoop gwOkOtherStatus cfgBase {} tsBase ∧
    importLoop gwFail cfgBase {} [txCheck, txCheck] =
      .error (.httpStatus 500,
        { transactions_created := 1, transactions_skipped := 0,
          transfers_matched := 0 }) ∧
    importStep gwFail cfgBase {} txCheck =
      .error (.httpStatus 500,
        { transactions_created := 1, transactions_skipped := 0,
          transfers_matched := 0 }) := by
  refine ⟨?_, ?_, ?_⟩
  · exact C3_gateway_error_behaviour.1 gwOk gwOkOtherStatus
      ⟨fun _ => rfl, fun _ => rfl, fun _ => rfl⟩ cfgBase {} tsBase
  · exact C3_gateway_error_behaviour.2.1 gwFail cfgBase {} txCheck [txCheck] _ (by decide)
  · exact C3_gateway_error_behaviour.2.2 gwFail cfgBase {} txCheck (by decide)
      (fun hty => absurd hty (by decide)) (by decide)

/-- **C4**: when the stripped `"Check"` cell is present and non-empty its
value is appended to the description with no separator, and this happens
before id generation — the stored external id is the generator applied to
the check-augmented transaction; an absent or empty check cell leaves the
description as the configured column's value. -/
theorem C4_check_augmentation {cfg : Config} {i : Nat} {raw : Row} {t : Transaction}
    (h : parseRow cfg i raw = .ok t) :
    ∃ d, getCol (stripRow raw) cfg.description_column = .ok d ∧
      (∀ v, dictGet (stripRow raw) "Check" = some v → v ≠ "" → t.description = d ++ v) ∧
      ((dictGet (stripRow raw) "Check" = none ∨ dictGet (stripRow raw) "Check" = some "") →
        t.description = d) ∧
      ∃ u, rowUid cfg i (stripRow raw) = .ok u ∧
        t.external_id = generateExternalId t u := by
  obtain ⟨amount, description, dateCell, u, hA, hD, hC, hU, _, hdesc, _, _, hid⟩ :=
    parseRow_ok_fields h
  cases hg : getCol (stripRow raw) cfg.description_column with
  | error e =>
    simp only [resolveDescription, hg] at hD
    exact Except.noConfusion hD
  | ok d =>
    refine ⟨d, rfl, ?_, ?_, u, hU, hid⟩
    · intro v hv hvne
      simp only [resolveDescription, hg, hv, if_neg hvne] at hD
      rw [hdesc]
      exact (Except.ok.inj hD).symm
    · intro hcase
      rcases hcase with hc | hc
      · simp only [resolveDescription, hg, hc] at hD
        rw [hdesc]
        exact (Except.ok.inj hD).symm
      · simp only [resolveDescription, hg, hc, if_pos] at hD
        rw [hdesc]
        exact (Except.ok.inj hD).symm

theorem C4_check_augmentation_witness :
    txCheck.description = "Rent" ++ "1024" ∧
    txCheck.external_id = generateExternalId txCheck none := by
  obtain ⟨d, hd, hsome, _, u, hu, hid⟩ :=
    C4_check_augmentation (show parseRow cfgBase 0 rowCheck = .ok txCheck from by decide)
  have hdv : "Rent" = d := Except.ok.inj
    ((show getCol (stripRow rowCheck) cfgBase.description_column = .ok "Rent" from by
      decide).symm.trans hd)
  have huv : none = u := Except.ok.inj
    ((show rowUid cfgBase 0 (stripRow rowCheck) = .ok (none : Option String) from by
      decide).symm.trans hu)
  constructor
  · have h1 := hsome "1024" (by decide) (by decide)
    rw [h1, ← hdv]
  · rw [hid, ← huv]

/-- **C5 counterexample**: with `description_column = "Memo"`, a row whose
`Memo` cell `"PAY"` is a truthy `transfers_out` key while its `Description`
cell `"different"` matches nothing: the claim demands classification via the
configured description field, so type `transfer`; the code consults the
literal `"Description"` column and leaves the row a withdrawal. -/
theorem C5_counterexample :
    (parseRow cfgMemo 0 rowMemo).map (fun t => t.type) = .ok (some "withdrawal") ∧
    pyTruthy (dictGet cfgMemo.transfers_out "PAY") = true ∧
    dictGet (stripRow rowMemo) cfgMemo.description_column = some "PAY" :=
  ⟨by decide, by decide, by decide⟩

/-- **C5 (amended)**: transfer classification consults the mappings with the
trimmed, pre-augmentation value of the row's literal `"Description"`
column — not, in general, the field named by `description_column`; the two
coincide exactly when `description_column` is `"Description"`. A parsed
transaction is a transfer iff that cell's value is a key of either mapping
with a non-empty mapped value. -/
theorem C5_classification_key {cfg : Config} {i : Nat} {raw : Row} {t : Transaction}
    {desc : String} (h : parseRow cfg i raw = .ok t)
    (hdesc : dictGet (stripRow raw) "Description" = some desc) :
    t.type = some "transfer" ↔
      (pyTruthy (dictGet cfg.transfers_out desc) = true ∨
       pyTruthy (dictGet cfg.transfers_in desc) = true) :=
  parseRow_type_transfer_iff h hdesc

theorem C5_classification_key_witness :
    ¬ txMemo.type = some "transfer" := by
  have hiff := C5_classification_key
    (show parseRow cfgMemo 0 rowMemo = .ok txMemo from by decide)
    (show dictGet (stripRow rowMemo) "Description" = some "different" from by decide)
  intro hty
  rcases hiff.mp hty with hc | hc
  · exact absurd hc (by decide)
  · exact absurd hc (by decide)

/-- **C6**: under the credit/debit scheme an empty credit cell yields the
negated debit value and a non-empty credit cell yields the credit value;
concretely, a row with debit `12.50` and empty credit produces a transaction
equal to the one a row with amount `-12.50` produces under the
otherwise-equivalent amount-column config. -/
theorem C6_credit_debit_equivalence :
    (∀ (cfg : Config) (row : Row) (cc dc creditCell : String),
      cfg.amount_column = none → cfg.credit_column = some cc →
      cfg.debit_column = some dc → getCol row cc = .ok creditCell →
      (creditCell = "" → ∀ (debitCell : String) (a : PyFloat),
        getCol row dc = .ok debitCell → pyFloat debitCell = some a →
        resolveAmount cfg row = .ok a.neg) ∧
      (creditCell ≠ "" → ∀ a : PyFloat, pyFloat creditCell = some a →
        resolveAmount cfg row = .ok a)) ∧
    parseRow cfgCD 0 rowDebit = parseRow cfgAmt 0 rowAmt ∧
    (parseRow cfgCD 0 rowDebit).map (fun t => t.amount) = .ok ⟨-1250, 2⟩ := by
  refine ⟨?_, by decide, by decide⟩
  intro cfg row cc dc creditCell hna hcc hdc hget
  constructor
  · intro hempty debitCell a hdget hpf
    subst hempty
    simp only [resolveAmount, hna, hcc, hdc, hget, hdget, hpf, if_pos]
  · intro hne a hpf
    simp only [resolveAmount, hna, hcc, hdc, hget, if_neg hne, hpf]

theorem C6_credit_debit_equivalence_witness :
    resolveAmount cfgCD rowDebit = .ok (PyFloat.neg ⟨1250, 2⟩) :=
  (C6_credit_debit_equivalence.1 cfgCD rowDebit "Credit" "Debit" "" rfl rfl rfl
    (by decide)).1 rfl "12.50" ⟨1250, 2⟩ (by decide) (by decide)

/-- **C7**: the normaliser emits transactions in reversed file order while
preserving each row's original index: on success there is one transaction
per row, the k-th emitted transaction is the parse of row `n-1-k` at
original index `n-1-k`, and under the ordinal sentinel the disambiguator of
a row at original index `i` is `str(i)`. -/
theorem C7_reversed_emission {cfg : Config} {rows : List Row} {ts : List Transaction}
    (hp : parseCsvTransactions cfg rows = .ok ts) :
    ts.length = rows.length ∧
    (∀ k (hk : k < ts.length), ∃ (hk' : rows.length - 1 - k < rows.length),
      parseRow cfg (rows.length - 1 - k) (rows.get ⟨rows.length - 1 - k, hk'⟩) =
        .ok (ts.get ⟨k, hk⟩)) ∧
    (cfg.additional_uid_column = some "idx" →
      ∀ (i : Nat) (row : Row), rowUid cfg i row = .ok (some (pyStr i))) := by
  unfold parseCsvTransactions at hp
  by_cases hcond : (cfg.amount_column.isNone &&
      (cfg.credit_column.isNone || cfg.debit_column.isNone)) = true
  · rw [if_pos hcond] at hp
    exact Except.noConfusion hp
  · rw [if_neg hcond] at hp
    obtain ⟨hlen, hget⟩ := parseRows_ok_inv hp
    have hlen2 : rows.enum.reverse.length = rows.length := by simp
    refine ⟨by rw [hlen, hlen2], ?_, ?_⟩
    · intro k hk
      have hkk : k < rows.enum.reverse.length := by
        rw [hlen2]
        rw [hlen, hlen2] at hk
        exact hk
      obtain ⟨hb, hrep⟩ := enumReverse_get rows k hkk
      refine ⟨hb, ?_⟩
      have hg := hget k hk hkk
      rw [hrep] at hg
      exact hg
    · intro hcfg i row
      simp only [rowUid, hcfg, if_neg (show ¬ ("idx" = "") from by decide), if_pos]

theorem C7_reversed_emission_witness :
    tsIdx.length = rows2.length ∧
    parseRow cfgIdx 1 (rows2.get ⟨1, by decide⟩) = .ok (tsIdx.get ⟨0, by decide⟩) ∧
    rowUid cfgIdx 5 rowPay = .ok (some (pyStr 5)) := by
  obtain ⟨h1, h2, h3⟩ := C7_reversed_emission
    (show parseCsvTransactions cfgIdx rows2 = .ok tsIdx from by decide)
  obtain ⟨hb, heq⟩ := h2 0 (by decide)
  exact ⟨h1, heq, h3 rfl 5 rowPay⟩

theorem resolveAmount_amount_scheme {cfg : Config} {a : String}
    (ha : cfg.amount_column = some a) (row : Row) :
    resolveAmount { cfg with credit_column := none, debit_column := none } row =
      resolveAmount cfg row := by
  simp only [resolveAmount, ha]

theorem parseRow_amount_scheme {cfg : Config} {a : String}
    (ha : cfg.amount_column = some a) (i : Nat) (raw : Row) :
    parseRow { cfg with credit_column := none, debit_column := none } i raw =
      parseRow cfg i raw := by
  unfold parseRow buildTransaction
  rw [resolveAmount_amount_scheme ha]
  rfl

theorem parseRows_congr {cfg1 cfg2 : Config}
    (h : ∀ i raw, parseRow cfg1 i raw = parseRow cfg2 i raw) :
    ∀ l, parseRows cfg1 l = parseRows cfg2 l := by
  intro l
  induction l with
  | nil => rfl
  | cons p rest ih =>
    obtain ⟨i, row⟩ := p
    unfold parseRows
    rw [h i row, ih]

/-- **C8 counterexample**: a config with the amount-column scheme and the
credit/debit scheme both fully specified — the claim demands a
configuration error, yet parsing succeeds and behaves exactly as under the
amount-column scheme alone (the row carries no credit or debit cells at
all, so the credit/debit scheme could not even run). -/
theorem C8_counterexample :
    parseCsvTransactions cfgBothSchemes [rowCoffee] =
      parseCsvTransactions cfgBase [rowCoffee] ∧
    (parseCsvTransactions cfgBothSchemes [rowCoffee]).isOk = true :=
  ⟨by decide, by decide⟩

/-- **C8 (amended)**: the configuration check fails — before any row is
processed — when `amount_column` is absent and the credit/debit pair is
incomplete; but when both schemes are fully specified no error is raised:
the amount-column scheme silently takes precedence and the credit and debit
columns are ignored. -/
theorem C8_amount_scheme_check :
    (∀ (cfg : Config) (rows : List Row), cfg.amount_column = none →
      (cfg.credit_column = none ∨ cfg.debit_column = none) →
      parseCsvTransactions cfg rows = .error .configError) ∧
    (∀ (cfg : Config) (a : String) (rows : List Row), cfg.amount_column = some a →
      parseCsvTransactions cfg rows =
        parseCsvTransactions
          { cfg with credit_column := none, debit_column := none } rows) := by
  constructor
  · intro cfg rows hna hcd
    rcases hcd with hc | hc
    · simp only [parseCsvTransactions, hna, hc, Option.isNone_none, Bool.true_and,
        Bool.true_or, if_pos]
    · simp only [parseCsvTransactions, hna, hc, Option.isNone_none, Bool.true_and,
        Bool.or_true, if_pos]
  · intro cfg a rows ha
    have hcond : (cfg.amount_column.isNone &&
        (cfg.credit_column.isNone || cfg.debit_column.isNone)) = false := by
      rw [ha]
      rfl
    have hcond' : ((({ cfg with credit_column := none, debit_column := none } :
        Config).amount_column).isNone &&
        ((({ cfg with credit_column := none, debit_column := none } :
          Config).credit_column).isNone ||
         (({ cfg with credit_column := none, debit_column := none } :
          Config).debit_column).isNone)) = false := by
      rw [show ({ cfg with credit_column := none, debit_column := none } :
        Config).amount_column = some a from ha]
      rfl
    unfold parseCsvTransactions
    rw [if_neg (by rw [hcond]; exact Bool.false_ne_true),
        if_neg (by rw [hcond']; exact Bool.false_ne_true)]
    exact parseRows_congr (fun i raw => (parseRow_amount_scheme ha i raw).symm)
      rows.enum.reverse

theorem C8_amount_scheme_check_witness :
    parseCsvTransactions cfgNoScheme [rowCoffee] = .error .configError ∧
    parseCsvTransactions cfgBothSchemes rows2 =
      parseCsvTransactions
        { cfgBothSchemes with credit_column := none, debit_column := none } rows2 :=
  ⟨C8_amount_scheme_check.1 cfgNoScheme [rowCoffee] rfl (Or.inl rfl),
   C8_amount_scheme_check.2 cfgBothSchemes "Amount" rows2 rfl⟩

/-- **C9**: with the ordinal sentinel configured, parsing the same raw row
at two different original file indices yields transactions with different
external ids: the identity keys differ in the appended rendered index, and
the digest model is injective (the spec's collision-resistance
assumption). -/
theorem C9_ordinal_disambiguation {cfg : Config} {raw : Row} {i j : Nat}
    {ti tj : Transaction} (hcfg : cfg.additional_uid_column = some "idx")
    (hij : i ≠ j) (hi : parseRow cfg i raw = .ok ti) (hj : parseRow cfg j raw = .ok tj) :
    ti.external_id ≠ tj.external_id := by
  obtain ⟨ai, di, ci, ui, hAi, hDi, hCi, hUi, hdi, hdsi, hami, haci, hidi⟩ :=
    parseRow_ok_fields hi
  obtain ⟨aj, dj, cj, uj, hAj, hDj, hCj, hUj, hdj, hdsj, hamj, hacj, hidj⟩ :=
    parseRow_ok_fields hj
  have hae : ai = aj := Except.ok.inj (hAi.symm.trans hAj)
  have hde : di = dj := Except.ok.inj (hDi.symm.trans hDj)
  have hce : ci = cj := Except.ok.inj (hCi.symm.trans hCj)
  have hux : ∀ (k : Nat), rowUid cfg k (stripRow raw) = .ok (some (pyStr k)) := by
    intro k
    simp only [rowUid, hcfg, if_neg (show ¬ ("idx" = "") from by decide), if_pos]
  have hui : ui = some (pyStr i) := Except.ok.inj (hUi.symm.trans (hux i))
  have huj : uj = some (pyStr j) := Except.ok.inj (hUj.symm.trans (hux j))
  intro heq
  rw [hidi, hidj, hui, huj] at heq
  unfold generateExternalId at heq
  simp only [if_neg (pyStr_ne_empty i), if_neg (pyStr_ne_empty j)] at heq
  have hkeys := sha256Hex_injective heq
  have hbase : ti.date.isoformat ++ "-" ++ ti.amount.repr ++ "-" ++ ti.account ++ "-"
      ++ ti.description ++ "-"
      = tj.date.isoformat ++ "-" ++ tj.amount.repr ++ "-" ++ tj.account ++ "-"
      ++ tj.description ++ "-" := by
    rw [hdi, hdj, hce, hami, hamj, hae, haci, hacj, hdsi, hdsj, hde]
  rw [hbase] at hkeys
  exact hij (pyStr_injective (string_append_cancel_left hkeys))

theorem C9_ordinal_disambiguation_witness :
    txIdx0.external_id ≠ txIdx1.external_id :=
  C9_ordinal_disambiguation rfl (by decide)
    (show parseRow cfgIdx 0 rowCoffee = .ok txIdx0 from by decide)
    (show parseRow cfgIdx 1 rowCoffee = .ok txIdx1 from by decide)

/-- **C10**: every successfully processed transaction increments exactly one
of the three counters, so a run that drains the whole sequence successfully
ends with created + skipped + matched equal to the number of transactions
the normaliser produced. -/
theorem C10_counters_partition :
    (∀ (gw : Gateway) (cfg : Config) (st : Counters) (t : Transaction) (st' : Counters),
      importStep gw cfg st t = .ok st' → countersSum st' = countersSum st + 1) ∧
    (∀ (gw : Gateway) (cfg : Config) (rows : List Row) (ts : List Transaction)
      (st : Counters),
      parseCsvTransactions cfg rows = .ok ts → importLoop gw cfg {} ts = .ok st →
      st.transactions_created + st.transactions_skipped + st.transfers_matched
        = ts.length) := by
  constructor
  · intro gw cfg st t st' h
    exact importStep_ok_sum h
  · intro gw cfg rows ts st _ hl
    have hsum := importLoop_ok_sum hl
    rw [show countersSum ({} : Counters) = 0 from rfl] at hsum
    unfold countersSum at hsum
    omega

theorem C10_counters_partition_witness :
    countersSum ⟨1, 1, 0⟩ = countersSum ⟨0, 1, 0⟩ + 1 ∧
    stBase.transactions_created + stBase.transactions_skipped
      + stBase.transfers_matched = tsBase.length := by
  constructor
  · exact C10_counters_partition.1 gwOk cfgBase ⟨0, 1, 0⟩ txCheck ⟨1, 1, 0⟩ (by decide)
  · exact C10_counters_partition.2 gwOk cfgBase rows2 tsBase stBase (by decide) (by decide)

end Firefly
